import Mathlib

/-!
Verification of the HDC1080 MicroPython driver (`src/hdc1080.py`).

The driver talks to a TI HDC1080 temperature/humidity sensor over I2C.
Every driver operation is a straight-line sequence of blocking bus
transactions (`i2c.writeto`, `i2c.readfrom`), timed delays (`sleep`), and
pure arithmetic.  We embed it shallowly: the bus transport is a record of
state-passing functions, each driver method is a function in a
state-and-trace monad `M`, and Python runtime exceptions (the driver's
read-modify-write methods contain genuine `bytearray`/`int` type errors)
are modelled with an explicit error type.
-/

namespace HDC

/-! ## Register and configuration constants (`src/hdc1080.py` lines 9-37) -/

def HDC1080_ADDR : Nat := 0x40

def TEMP_REG : Nat := 0x00
def HUMI_REG : Nat := 0x01
def CONF_REG : Nat := 0x02
def FSER_REG : Nat := 0xFB
def MSER_REG : Nat := 0xFC
def LSER_REG : Nat := 0xFD
def MFID_REG : Nat := 0xFE
def DVID_REG : Nat := 0xFF

def HDC1080_CONFIG_RESET_BIT : Nat := 0x8000
def HDC1080_CONFIG_HEATER_ENABLE : Nat := 0x2000
def HDC1080_CONFIG_ACQUISITION_MODE : Nat := 0x1000
def HDC1080_CONFIG_BATTERY_STATUS : Nat := 0x0800
def HDC1080_CONFIG_TEMPERATURE_RESOLUTION : Nat := 0x0400
def HDC1080_CONFIG_HUMIDITY_RESOLUTION_HBIT : Nat := 0x0200
def HDC1080_CONFIG_HUMIDITY_RESOLUTION_LBIT : Nat := 0x0100

def HDC1080_CONFIG_TEMPERATURE_RESOLUTION_14BIT : Nat := 0x0000
def HDC1080_CONFIG_TEMPERATURE_RESOLUTION_11BIT : Nat := 0x0400

def HDC1080_CONFIG_HUMIDITY_RESOLUTION_14BIT : Nat := 0x0000
def HDC1080_CONFIG_HUMIDITY_RESOLUTION_11BIT : Nat := 0x0100
def HDC1080_CONFIG_HUMIDITY_RESOLUTION_8BIT : Nat := 0x0200

/-- The eight documented register-pointer values (`src/hdc1080.py` lines 13-20). -/
def allowedPointers : List Nat :=
  [TEMP_REG, HUMI_REG, CONF_REG, FSER_REG, MSER_REG, LSER_REG, MFID_REG, DVID_REG]

/-! ## Errors, events, transport, and the driver monad -/

/-- Failures a driver call can end in: a transport-level transfer failure
(`BusError`), or a Python runtime exception raised by the driver's own code
(`TypeError` from `bytearray | int` / `bytearray & int`, `ValueError` from
storing a value above 255 into a `bytearray` cell, `AssertionError` from the
presence `assert` in `__init__`). -/
inductive PyError where
  | busError
  | typeError
  | valueError
  | assertionError
  deriving DecidableEq

/-- Observable actions on the bus transport: a presence scan, a write of a
byte list to an address, a read of `nbytes` from an address, or a timed
delay (seconds). -/
inductive Event where
  | scan
  | write (addr : Nat) (data : List Nat)
  | read (addr : Nat) (nbytes : Nat)
  | delay (seconds : ℚ)
  deriving DecidableEq

/-- A bus transport with device-side state `σ`: the three primitives the
driver uses (`i2c.scan`, `i2c.writeto`, `i2c.readfrom`).  A transfer may
fail with a `PyError` (in practice `busError`). -/
structure Transport (σ : Type) where
  scanResult : σ → List Nat
  writeto : σ → Nat → List Nat → Except PyError σ
  readfrom : σ → Nat → Nat → Except PyError (List Nat × σ)

/-- The driver monad: device state in, outcome (value or exception, with the
post-state) plus the full trace of bus events issued before returning or
raising. -/
def M (σ α : Type) : Type := σ → Except PyError (α × σ) × List Event

def Mpure {σ α : Type} (a : α) : M σ α := fun s => (.ok (a, s), [])

def Mbind {σ α β : Type} (x : M σ α) (f : α → M σ β) : M σ β := fun s =>
  match x s with
  | (.ok (a, s1), tr) =>
      match f a s1 with
      | (r, tr2) => (r, tr ++ tr2)
  | (.error e, tr) => (.error e, tr)

def Mthrow {σ α : Type} (e : PyError) : M σ α := fun _ => (.error e, [])

/-- `i2c.scan()` -/
def opScan {σ : Type} (t : Transport σ) : M σ (List Nat) :=
  fun s => (.ok (t.scanResult s, s), [.scan])

/-- `i2c.writeto(addr, data)`.  The transaction event is recorded whether or
not the transfer succeeds (a failed transfer was still attempted once). -/
def opWrite {σ : Type} (t : Transport σ) (addr : Nat) (data : List Nat) : M σ Unit :=
  fun s =>
    match t.writeto s addr data with
    | .ok s1 => (.ok ((), s1), [.write addr data])
    | .error e => (.error e, [.write addr data])

/-- `i2c.readfrom(addr, nbytes)` -/
def opRead {σ : Type} (t : Transport σ) (addr nbytes : Nat) : M σ (List Nat) :=
  fun s =>
    match t.readfrom s addr nbytes with
    | .ok (bs, s1) => (.ok (bs, s1), [.read addr nbytes])
    | .error e => (.error e, [.read addr nbytes])

/-- `sleep(seconds)` -/
def opSleep {σ : Type} (seconds : ℚ) : M σ Unit :=
  fun s => (.ok ((), s), [.delay seconds])

/-- `int.from_bytes(bs, "big")` -/
def int_from_bytes_big (bs : List Nat) : Nat :=
  bs.foldl (fun acc b => acc * 256 + b) 0

/-! ## The driver object and its methods (`src/hdc1080.py` lines 40-139) -/

/-- The `HDC1080` instance state: the slave address and the (unused) struct
format string set by `__init__`.  The transport reference is passed
explicitly to each method. -/
structure HDC1080 where
  addr : Nat
  fmt : String
  deriving DecidableEq

/-- `HDC1080.__init__` (lines 41-60): assert the address answers the scan
(raising `AssertionError` otherwise), sleep 15 ms, then write the 3-byte
configuration frame `[CONF_REG, 1 << 4, 0]`. -/
def init {σ : Type} (t : Transport σ) (slave_addr : Nat) : M σ HDC1080 :=
  Mbind (opScan t) fun addrs =>
  if slave_addr ∈ addrs then
    Mbind (opSleep (15 / 1000)) fun _ =>
    Mbind (opWrite t slave_addr [CONF_REG, 1 <<< 4, 0]) fun _ =>
    Mpure { addr := slave_addr, fmt := ">2B" }
  else
    Mthrow .assertionError

/-- `HDC1080.read_temperature` (lines 62-72): pointer write to `TEMP_REG`,
2-byte big-endian read, `raw * 165 / 65536 - 40`.  The `sleep` between the
two transfers is commented out in the source. -/
def read_temperature {σ : Type} (t : Transport σ) (self : HDC1080) : M σ ℚ :=
  Mbind (opWrite t self.addr [TEMP_REG]) fun _ =>
  Mbind (opRead t self.addr 2) fun bs =>
  Mpure ((int_from_bytes_big bs : ℚ) * 165 / 65536 - 40)

/-- `HDC1080.read_humidity` (lines 74-80): pointer write to `HUMI_REG`,
2-byte big-endian read, `raw / 65536 * 100`.  The `sleep` is commented out
in the source. -/
def read_humidity {σ : Type} (t : Transport σ) (self : HDC1080) : M σ ℚ :=
  Mbind (opWrite t self.addr [HUMI_REG]) fun _ =>
  Mbind (opRead t self.addr 2) fun bs =>
  Mpure ((int_from_bytes_big bs : ℚ) / 65536 * 100)

/-- `HDC1080.read_configuration_register` (lines 82-85).  The `sleep` is
commented out in the source. -/
def read_configuration_register {σ : Type} (t : Transport σ) (self : HDC1080) : M σ Nat :=
  Mbind (opWrite t self.addr [CONF_REG]) fun _ =>
  Mbind (opRead t self.addr 2) fun bs =>
  Mpure (int_from_bytes_big bs)

/-- `HDC1080.turnHeaterOn` (lines 87-93).  After reading the configuration
word `c`, the source executes `config_data[1] = c`, which raises
`ValueError` in (Micro)Python when `c > 255` because a `bytearray` cell
holds one byte; when `c ≤ 255` the next line
`config_data | HDC1080_CONFIG_HEATER_ENABLE` raises `TypeError`, since `|`
is unsupported between `bytearray` and `int`.  Either way the method raises
before reaching its `i2c.writeto` line (which itself names an undefined
global `i2c`). -/
def turnHeaterOn {σ : Type} (t : Transport σ) (self : HDC1080) : M σ Unit :=
  Mbind (read_configuration_register t self) fun c =>
  Mthrow (if 256 ≤ c then .valueError else .typeError)

/-- `HDC1080.turnHeaterOff` (lines 95-101).  Same failure shape as
`turnHeaterOn`: `config_data[1] = c` raises `ValueError` for `c > 255`,
otherwise `config_data & ~HDC1080_CONFIG_HEATER_ENABLE` raises `TypeError`
(`&` unsupported between `bytearray` and `int`). -/
def turnHeaterOff {σ : Type} (t : Transport σ) (self : HDC1080) : M σ Unit :=
  Mbind (read_configuration_register t self) fun c =>
  Mthrow (if 256 ≤ c then .valueError else .typeError)

/-- `HDC1080.setHumidityResolution` (lines 103-109).  Same failure shape:
`config_data[1] = c` raises `ValueError` for `c > 255`, otherwise
`config_data & ~0x300` raises `TypeError`. -/
def setHumidityResolution {σ : Type} (t : Transport σ) (self : HDC1080)
    (resolution : Nat) : M σ Unit :=
  Mbind (read_configuration_register t self) fun c =>
  Mthrow (if 256 ≤ c then .valueError else .typeError)

/-- `HDC1080.setTemperatureResolution` (lines 111-117).  Same failure shape:
`config_data[1] = c` raises `ValueError` for `c > 255`, otherwise
`config_data & ~0x0400` raises `TypeError`. -/
def setTemperatureResolution {σ : Type} (t : Transport σ) (self : HDC1080)
    (resolution : Nat) : M σ Unit :=
  Mbind (read_configuration_register t self) fun c =>
  Mthrow (if 256 ≤ c then .valueError else .typeError)

/-- `HDC1080.readManufacturerID` (lines 119-122). -/
def readManufacturerID {σ : Type} (t : Transport σ) (self : HDC1080) : M σ Nat :=
  Mbind (opWrite t self.addr [MFID_REG]) fun _ =>
  Mbind (opRead t self.addr 2) fun bs =>
  Mpure (int_from_bytes_big bs)

/-- `HDC1080.readDeviceID` (lines 124-127). -/
def readDeviceID {σ : Type} (t : Transport σ) (self : HDC1080) : M σ Nat :=
  Mbind (opWrite t self.addr [DVID_REG]) fun _ =>
  Mbind (opRead t self.addr 2) fun bs =>
  Mpure (int_from_bytes_big bs)

/-- `HDC1080.readSerialNumber` (lines 129-139): three pointer-write +
2-byte-read cycles against `FSER_REG`, `MSER_REG`, `LSER_REG`, combined as
`(s0 * 256 + s1) * 256 + s2` — the source multiplies by 256 between the
16-bit segments.  All three `sleep` lines are commented out. -/
def readSerialNumber {σ : Type} (t : Transport σ) (self : HDC1080) : M σ Nat :=
  Mbind (opWrite t self.addr [FSER_REG]) fun _ =>
  Mbind (opRead t self.addr 2) fun b0 =>
  Mbind (opWrite t self.addr [MSER_REG]) fun _ =>
  Mbind (opRead t self.addr 2) fun b1 =>
  Mbind (opWrite t self.addr [LSER_REG]) fun _ =>
  Mbind (opRead t self.addr 2) fun b2 =>
  Mpure ((int_from_bytes_big b0 * 256 + int_from_bytes_big b1) * 256
    + int_from_bytes_big b2)

/-! ## A faithful device-side model of the HDC1080 bus behaviour -/

/-- HDC1080 device state: the addresses answering a scan, the 16-bit
contents of each register (indexed by pointer value), and the current
pointer register. -/
structure Device where
  present : List Nat
  regs : Nat → Nat
  ptr : Nat

/-- The transport of a healthy device: a 1-byte write sets the pointer, a
3-byte write sets the pointer and stores the 16-bit big-endian payload in
the addressed register, and a 2-byte read returns the big-endian bytes of
the register the pointer selects. -/
def devT : Transport Device where
  scanResult d := d.present
  writeto d _ data :=
    match data with
    | [p] => .ok { d with ptr := p }
    | [p, hi, lo] =>
        .ok { d with ptr := p,
                     regs := fun r => if r = p then hi * 256 + lo else d.regs r }
    | _ => .ok d
  readfrom d _ nbytes :=
    .ok (if nbytes = 2 then [d.regs d.ptr / 256 % 256, d.regs d.ptr % 256] else [],
         d)

/-- A transport that behaves like `devT` but whose `failAt`-th transfer
(write or read, counting from 0) fails with `busError`. -/
structure FState where
  dev : Device
  failAt : Nat
  count : Nat

def failT : Transport FState where
  scanResult s := s.dev.present
  writeto s addr data :=
    if s.count = s.failAt then .error .busError
    else
      match devT.writeto s.dev addr data with
      | .ok d1 => .ok { s with dev := d1, count := s.count + 1 }
      | .error e => .error e
  readfrom s addr nbytes :=
    if s.count = s.failAt then .error .busError
    else
      match devT.readfrom s.dev addr nbytes with
      | .ok (bs, d1) => .ok (bs, { s with dev := d1, count := s.count + 1 })
      | .error e => .error e

/-! ## Run projections and trace observations -/

/-- Outcome of a driver call: the returned value or the raised error. -/
def runValue {σ α : Type} (m : M σ α) (s : σ) : Except PyError α :=
  match (m s).1 with
  | .ok (a, _) => .ok a
  | .error e => .error e

/-- Bus-event trace of a driver call. -/
def runTrace {σ α : Type} (m : M σ α) (s : σ) : List Event := (m s).2

/-- Device state after a successful driver call. -/
def runState {σ α : Type} (m : M σ α) (s : σ) : Option σ :=
  match (m s).1 with
  | .ok (_, s1) => some s1
  | .error _ => none

def Event.isWrite : Event → Bool
  | .write _ _ => true
  | _ => false

def Event.isTransfer : Event → Bool
  | .write _ _ => true
  | .read _ _ => true
  | _ => false

def Event.isDelay : Event → Bool
  | .delay _ => true
  | _ => false

def countWrites (tr : List Event) : Nat := (tr.filter Event.isWrite).length

def countTransfers (tr : List Event) : Nat := (tr.filter Event.isTransfer).length

def hasDelay (tr : List Event) : Bool := tr.any Event.isDelay

/-- The first byte of each write transaction in a trace (the register
pointer of that write). -/
def pointerBytes (tr : List Event) : List Nat :=
  tr.filterMap fun e =>
    match e with
    | .write _ (p :: _) => some p
    | _ => none

/-- A standard driver instance bound to the default address. -/
def sensor : HDC1080 := { addr := HDC1080_ADDR, fmt := ">2B" }

/-- A device whose temperature and humidity registers both hold `r`, with
all other registers zero, answering at the default address. -/
def mkDev (r : Nat) : Device :=
  { present := [HDC1080_ADDR],
    regs := fun p => if p = TEMP_REG ∨ p = HUMI_REG then r else 0,
    ptr := 0 }

/-- A device whose serial-number segment registers hold `0x1122`, `0x3344`,
`0x5566` (the stub of spec section 8). -/
def serialDev : Device :=
  { present := [HDC1080_ADDR],
    regs := fun p =>
      if p = FSER_REG then 0x1122
      else if p = MSER_REG then 0x3344
      else if p = LSER_REG then 0x5566
      else 0,
    ptr := 0 }

/-- A device whose configuration register reads `0x1000` (the word the
driver's own `__init__` writes), all else zero. -/
def confDev : Device :=
  { present := [HDC1080_ADDR],
    regs := fun p => if p = CONF_REG then 0x1000 else 0,
    ptr := 0 }

/-- Initial state of the failing transport: device `d`, transfer number `k`
fails. -/
def failState (d : Device) (k : Nat) : FState :=
  { dev := d, failAt := k, count := 0 }

/-- Reading a 16-bit register as two big-endian bytes and reassembling with
`int.from_bytes` recovers the register value modulo 2^16. -/
lemma from_bytes2 (v : Nat) :
    int_from_bytes_big [v / 256 % 256, v % 256] = v % 65536 := by
  simp [int_from_bytes_big]
  omega

/-! ## Theorems about the claims -/

/-- C1: on a device whose configuration word is `0x1000` (the very word the
driver's `__init__` programs), `turnHeaterOn` raises `ValueError` (storing
the 16-bit word into a single `bytearray` cell) after its embedded
configuration read, and its trace contains only the pointer write and the
2-byte read — it never issues the claimed 3-byte `[0x02, high, low]`
configuration write with the heater bit set; `turnHeaterOff` fails
identically.  This refutes the claimed read-modify-write behaviour on the
code as written. -/
theorem turnHeater_crashes_with_python_error :
    runValue (turnHeaterOn devT sensor) confDev = .error .valueError ∧
    runTrace (turnHeaterOn devT sensor) confDev
      = [.write HDC1080_ADDR [CONF_REG], .read HDC1080_ADDR 2] ∧
    runValue (turnHeaterOff devT sensor) confDev = .error .valueError ∧
    runTrace (turnHeaterOff devT sensor) confDev
      = [.write HDC1080_ADDR [CONF_REG], .read HDC1080_ADDR 2] := by
  exact ⟨rfl, rfl, rfl, rfl⟩

/-- C2: against the spec's stub segments `0x1122`, `0x3344`, `0x5566`,
`readSerialNumber` returns `0x11559966` — the source combines the three
16-bit segments with `* 256` (an 8-bit shift), not `* 65536` — and not the
claimed big-endian concatenation `0x112233445566`. -/
theorem readSerialNumber_combines_with_256 :
    runValue (readSerialNumber devT sensor) serialDev = .ok 0x11559966 ∧
    (0x11559966 : Nat) ≠ 0x112233445566 := by
  exact ⟨rfl, by decide⟩

/-- C5: `setHumidityResolution` raises `ValueError` (16-bit configuration
word stored into one `bytearray` cell) right after its embedded
configuration read, issuing no configuration write at all — so the claimed
set-then-restore round trip never happens on the code as written.  Shown on
a device whose configuration word is `0x1000`. -/
theorem setHumidityResolution_crashes :
    runValue (setHumidityResolution devT sensor
        HDC1080_CONFIG_HUMIDITY_RESOLUTION_8BIT) confDev = .error .valueError ∧
    runTrace (setHumidityResolution devT sensor
        HDC1080_CONFIG_HUMIDITY_RESOLUTION_8BIT) confDev
      = [.write HDC1080_ADDR [CONF_REG], .read HDC1080_ADDR 2] := by
  exact ⟨rfl, rfl⟩

/-- C7 counterexample: `readSerialNumber` — one of the read operations the
claim quantifies over — issues six bus transactions, not exactly two; and
`read_temperature` issues no timed delay between its pointer write and its
data read (every `sleep` in the read paths is commented out in the
source). -/
theorem readSerialNumber_not_two_transactions :
    countTransfers (runTrace (readSerialNumber devT sensor) serialDev) = 6 ∧
    (6 : Nat) ≠ 2 ∧
    hasDelay (runTrace (read_temperature devT sensor) (mkDev 0)) = false := by
  exact ⟨rfl, by decide, rfl⟩

/-- C3: for every device whose temperature register holds a 16-bit value
`r`, `read_temperature` returns `r * 165 / 65536 - 40` degrees Celsius
(exact rational arithmetic; the Python floats involved are dyadic and
exact); boundary cases: `r = 0` gives `-40` and `r = 65535` gives
`8191835 / 65536 ≈ 124.997`. -/
theorem read_temperature_linear_formula :
    (∀ (d : Device) (self : HDC1080), d.regs TEMP_REG < 65536 →
      runValue (read_temperature devT self) d
        = .ok ((d.regs TEMP_REG : ℚ) * 165 / 65536 - 40)) ∧
    runValue (read_temperature devT sensor) (mkDev 0) = .ok (-40) ∧
    runValue (read_temperature devT sensor) (mkDev 65535)
      = .ok (8191835 / 65536) ∧
    (124997 : ℚ) / 1000 < 8191835 / 65536 ∧
    (8191835 : ℚ) / 65536 < 124998 / 1000 := by
  refine ⟨fun d self h => ?_, ?_, ?_, by norm_num, by norm_num⟩
  · have h0 : d.regs 0 % 65536 = d.regs 0 := Nat.mod_eq_of_lt h
    simp [runValue, read_temperature, Mbind, Mpure, opWrite, opRead, devT,
      from_bytes2, TEMP_REG]
    rw [h0]
  · simp [runValue, read_temperature, Mbind, Mpure, opWrite, opRead, devT,
      mkDev, int_from_bytes_big, sensor, TEMP_REG, HUMI_REG]
  · simp [runValue, read_temperature, Mbind, Mpure, opWrite, opRead, devT,
      mkDev, int_from_bytes_big, sensor, TEMP_REG, HUMI_REG]
    norm_num

/-- C3 witness: the general formula of `read_temperature_linear_formula`
instantiated on the concrete device whose temperature register reads 0. -/
theorem read_temperature_linear_formula_witness :
    runValue (read_temperature devT sensor) (mkDev 0)
      = .ok (((mkDev 0).regs TEMP_REG : ℚ) * 165 / 65536 - 40) :=
  read_temperature_linear_formula.1 (mkDev 0) sensor (by decide)

/-- C4: for every device whose humidity register holds a 16-bit value `r`,
`read_humidity` returns `r / 65536 * 100` percent relative humidity;
boundary cases: `r = 0` gives `0` and `r = 65535` gives
`6553500 / 65536 ≈ 99.998`. -/
theorem read_humidity_linear_formula :
    (∀ (d : Device) (self : HDC1080), d.regs HUMI_REG < 65536 →
      runValue (read_humidity devT self) d
        = .ok ((d.regs HUMI_REG : ℚ) / 65536 * 100)) ∧
    runValue (read_humidity devT sensor) (mkDev 0) = .ok 0 ∧
    runValue (read_humidity devT sensor) (mkDev 65535)
      = .ok (6553500 / 65536) ∧
    (99998 : ℚ) / 1000 < 6553500 / 65536 ∧
    (6553500 : ℚ) / 65536 < 99999 / 1000 := by
  refine ⟨fun d self h => ?_, ?_, ?_, by norm_num, by norm_num⟩
  · have h0 : d.regs 1 % 65536 = d.regs 1 := Nat.mod_eq_of_lt h
    simp [runValue, read_humidity, Mbind, Mpure, opWrite, opRead, devT,
      from_bytes2, HUMI_REG]
    rw [h0]
  · simp [runValue, read_humidity, Mbind, Mpure, opWrite, opRead, devT,
      mkDev, int_from_bytes_big, sensor, TEMP_REG, HUMI_REG]
  · simp [runValue, read_humidity, Mbind, Mpure, opWrite, opRead, devT,
      mkDev, int_from_bytes_big, sensor, TEMP_REG, HUMI_REG]
    norm_num

/-- C4 witness: the general formula of `read_humidity_linear_formula`
instantiated on the concrete device whose humidity register reads 0. -/
theorem read_humidity_linear_formula_witness :
    runValue (read_humidity devT sensor) (mkDev 0)
      = .ok (((mkDev 0).regs HUMI_REG : ℚ) / 65536 * 100) :=
  read_humidity_linear_formula.1 (mkDev 0) sensor (by decide)

/-- C7 amended: each single-register read operation issues exactly a pointer
write followed by a 2-byte data read — two bus transactions, with no delay
between them — and `readSerialNumber` issues exactly three such
pointer-write/read pairs (six transactions), likewise with no delays. -/
theorem read_operation_traces :
    ∀ (d : Device) (self : HDC1080),
      runTrace (read_temperature devT self) d
        = [.write self.addr [TEMP_REG], .read self.addr 2] ∧
      runTrace (read_humidity devT self) d
        = [.write self.addr [HUMI_REG], .read self.addr 2] ∧
      runTrace (read_configuration_register devT self) d
        = [.write self.addr [CONF_REG], .read self.addr 2] ∧
      runTrace (readManufacturerID devT self) d
        = [.write self.addr [MFID_REG], .read self.addr 2] ∧
      runTrace (readDeviceID devT self) d
        = [.write self.addr [DVID_REG], .read self.addr 2] ∧
      runTrace (readSerialNumber devT self) d
        = [.write self.addr [FSER_REG], .read self.addr 2,
           .write self.addr [MSER_REG], .read self.addr 2,
           .write self.addr [LSER_REG], .read self.addr 2] := by
  exact fun d self => ⟨rfl, rfl, rfl, rfl, rfl, rfl⟩

/-- C6: constructing the driver against any device and any address fails
(with the `assert`'s error — the construction-failure error the spec names
`DeviceNotFoundError`) when the address is absent from the transport's scan
result, issuing no write; otherwise it succeeds and its trace is exactly a
scan, the 15 ms startup delay, and the single 3-byte configuration write
`[0x02, 0x10, 0x00]` — exactly one bus write transaction. -/
theorem init_presence_and_single_write :
    ∀ (d : Device) (a : Nat),
      (a ∈ d.present →
        runValue (init devT a) d = .ok { addr := a, fmt := ">2B" } ∧
        runTrace (init devT a) d
          = [.scan, .delay (15 / 1000), .write a [CONF_REG, 1 <<< 4, 0]]) ∧
      (a ∉ d.present →
        runValue (init devT a) d = .error .assertionError ∧
        countWrites (runTrace (init devT a) d) = 0) := by
  intro d a
  constructor
  · intro h
    constructor <;>
      simp [init, Mbind, Mpure, Mthrow, opScan, opSleep, opWrite, runValue,
        runTrace, devT, h]
  · intro h
    constructor <;>
      simp [init, Mbind, Mpure, Mthrow, opScan, opSleep, opWrite, runValue,
        runTrace, devT, countWrites, Event.isWrite, h]

/-- C6 witness: `init_presence_and_single_write` instantiated on a device
answering only at `0x40`: construction succeeds there with the single
configuration write, and fails at the absent address `0x41` with no
write. -/
theorem init_presence_and_single_write_witness :
    (runValue (init devT HDC1080_ADDR) (mkDev 0)
        = .ok { addr := HDC1080_ADDR, fmt := ">2B" } ∧
      runTrace (init devT HDC1080_ADDR) (mkDev 0)
        = [.scan, .delay (15 / 1000), .write HDC1080_ADDR [CONF_REG, 1 <<< 4, 0]]) ∧
    (runValue (init devT 0x41) (mkDev 0) = .error .assertionError ∧
      countWrites (runTrace (init devT 0x41) (mkDev 0)) = 0) :=
  ⟨(init_presence_and_single_write (mkDev 0) HDC1080_ADDR).1 (by decide),
   (init_presence_and_single_write (mkDev 0) 0x41).2 (by decide)⟩

/-- C8: on a transport whose `k`-th transfer fails with `BusError` — for
every driver operation and every transfer position `k` that operation
reaches — the operation propagates `busError` verbatim (no other outcome,
no partial result) and its trace holds exactly `k + 1` transfer events: the
`k` successful transfers and a single attempt of the failing one, never a
retry.  (For a transfer position an operation reaches only after its own
`TypeError`/`ValueError` crash, no bus failure can arise, so those
positions do not exist for the four broken read-modify-write methods.) -/
theorem busError_propagates_without_retry :
    ∀ (d : Device),
      (runValue (init failT HDC1080_ADDR) (failState (mkDev 0) 0),
        countTransfers (runTrace (init failT HDC1080_ADDR) (failState (mkDev 0) 0)))
        = (.error .busError, 1) ∧
      (runValue (read_temperature failT sensor) (failState d 0),
        countTransfers (runTrace (read_temperature failT sensor) (failState d 0)))
        = (.error .busError, 1) ∧
      (runValue (read_temperature failT sensor) (failState d 1),
        countTransfers (runTrace (read_temperature failT sensor) (failState d 1)))
        = (.error .busError, 2) ∧
      (runValue (read_humidity failT sensor) (failState d 0),
        countTransfers (runTrace (read_humidity failT sensor) (failState d 0)))
        = (.error .busError, 1) ∧
      (runValue (read_humidity failT sensor) (failState d 1),
        countTransfers (runTrace (read_humidity failT sensor) (failState d 1)))
        = (.error .busError, 2) ∧
      (runValue (read_configuration_register failT sensor) (failState d 0),
        countTransfers (runTrace (read_configuration_register failT sensor) (failState d 0)))
        = (.error .busError, 1) ∧
      (runValue (read_configuration_register failT sensor) (failState d 1),
        countTransfers (runTrace (read_configuration_register failT sensor) (failState d 1)))
        = (.error .busError, 2) ∧
      (runValue (readManufacturerID failT sensor) (failState d 0),
        countTransfers (runTrace (readManufacturerID failT sensor) (failState d 0)))
        = (.error .busError, 1) ∧
      (runValue (readManufacturerID failT sensor) (failState d 1),
        countTransfers (runTrace (readManufacturerID failT sensor) (failState d 1)))
        = (.error .busError, 2) ∧
      (runValue (readDeviceID failT sensor) (failState d 0),
        countTransfers (runTrace (readDeviceID failT sensor) (failState d 0)))
        = (.error .busError, 1) ∧
      (runValue (readDeviceID failT sensor) (failState d 1),
        countTransfers (runTrace (readDeviceID failT sensor) (failState d 1)))
        = (.error .busError, 2) ∧
      (runValue (turnHeaterOn failT sensor) (failState d 0),
        countTransfers (runTrace (turnHeaterOn failT sensor) (failState d 0)))
        = (.error .busError, 1) ∧
      (runValue (turnHeaterOn failT sensor) (failState d 1),
        countTransfers (runTrace (turnHeaterOn failT sensor) (failState d 1)))
        = (.error .busError, 2) ∧
      (runValue (turnHeaterOff failT sensor) (failState d 0),
        countTransfers (runTrace (turnHeaterOff failT sensor) (failState d 0)))
        = (.error .busError, 1) ∧
      (runValue (turnHeaterOff failT sensor) (failState d 1),
        countTransfers (runTrace (turnHeaterOff failT sensor) (failState d 1)))
        = (.error .busError, 2) ∧
      (runValue (setHumidityResolution failT sensor HDC1080_CONFIG_HUMIDITY_RESOLUTION_8BIT) (failState d 0),
        countTransfers (runTrace (setHumidityResolution failT sensor HDC1080_CONFIG_HUMIDITY_RESOLUTION_8BIT) (failState d 0)))
        = (.error .busError, 1) ∧
      (runValue (setHumidityResolution failT sensor HDC1080_CONFIG_HUMIDITY_RESOLUTION_8BIT) (failState d 1),
        countTransfers (runTrace (setHumidityResolution failT sensor HDC1080_CONFIG_HUMIDITY_RESOLUTION_8BIT) (failState d 1)))
        = (.error .busError, 2) ∧
      (runValue (setTemperatureResolution failT sensor HDC1080_CONFIG_TEMPERATURE_RESOLUTION_11BIT) (failState d 0),
        countTransfers (runTrace (setTemperatureResolution failT sensor HDC1080_CONFIG_TEMPERATURE_RESOLUTION_11BIT) (failState d 0)))
        = (.error .busError, 1) ∧
      (runValue (setTemperatureResolution failT sensor HDC1080_CONFIG_TEMPERATURE_RESOLUTION_11BIT) (failState d 1),
        countTransfers (runTrace (setTemperatureResolution failT sensor HDC1080_CONFIG_TEMPERATURE_RESOLUTION_11BIT) (failState d 1)))
        = (.error .busError, 2) ∧
      (runValue (readSerialNumber failT sensor) (failState d 0),
        countTransfers (runTrace (readSerialNumber failT sensor) (failState d 0)))
        = (.error .busError, 1) ∧
      (runValue (readSerialNumber failT sensor) (failState d 1),
        countTransfers (runTrace (readSerialNumber failT sensor) (failState d 1)))
        = (.error .busError, 2) ∧
      (runValue (readSerialNumber failT sensor) (failState d 2),
        countTransfers (runTrace (readSerialNumber failT sensor) (failState d 2)))
        = (.error .busError, 3) ∧
      (runValue (readSerialNumber failT sensor) (failState d 3),
        countTransfers (runTrace (readSerialNumber failT sensor) (failState d 3)))
        = (.error .busError, 4) ∧
      (runValue (readSerialNumber failT sensor) (failState d 4),
        countTransfers (runTrace (readSerialNumber failT sensor) (failState d 4)))
        = (.error .busError, 5) ∧
      (runValue (readSerialNumber failT sensor) (failState d 5),
        countTransfers (runTrace (readSerialNumber failT sensor) (failState d 5)))
        = (.error .busError, 6) := by
  exact fun d =>
    ⟨rfl, rfl, rfl, rfl, rfl, rfl, rfl, rfl, rfl, rfl, rfl, rfl, rfl,
     rfl, rfl, rfl, rfl, rfl, rfl, rfl, rfl, rfl, rfl, rfl, rfl⟩

/-- C9: in every bus write any driver operation issues — over every device
state, driver instance, constructor address, and resolution argument — the
first (pointer) byte is one of the eight documented register values
`{0x00, 0x01, 0x02, 0xFB, 0xFC, 0xFD, 0xFE, 0xFF}`. -/
theorem pointer_bytes_documented :
    ∀ (d : Device) (self : HDC1080) (a res : Nat),
      (pointerBytes (runTrace (init devT a) d)).all
        (fun p => allowedPointers.contains p) = true ∧
      (pointerBytes (runTrace (read_temperature devT self) d)).all
        (fun p => allowedPointers.contains p) = true ∧
      (pointerBytes (runTrace (read_humidity devT self) d)).all
        (fun p => allowedPointers.contains p) = true ∧
      (pointerBytes (runTrace (read_configuration_register devT self) d)).all
        (fun p => allowedPointers.contains p) = true ∧
      (pointerBytes (runTrace (turnHeaterOn devT self) d)).all
        (fun p => allowedPointers.contains p) = true ∧
      (pointerBytes (runTrace (turnHeaterOff devT self) d)).all
        (fun p => allowedPointers.contains p) = true ∧
      (pointerBytes (runTrace (setHumidityResolution devT self res) d)).all
        (fun p => allowedPointers.contains p) = true ∧
      (pointerBytes (runTrace (setTemperatureResolution devT self res) d)).all
        (fun p => allowedPointers.contains p) = true ∧
      (pointerBytes (runTrace (readManufacturerID devT self) d)).all
        (fun p => allowedPointers.contains p) = true ∧
      (pointerBytes (runTrace (readDeviceID devT self) d)).all
        (fun p => allowedPointers.contains p) = true ∧
      (pointerBytes (runTrace (readSerialNumber devT self) d)).all
        (fun p => allowedPointers.contains p) = true := by
  intro d self a res
  refine ⟨?_, rfl, rfl, rfl, rfl, rfl, rfl, rfl, rfl, rfl, rfl⟩
  by_cases h : a ∈ d.present <;>
    simp [init, Mbind, Mpure, Mthrow, opScan, opSleep, opWrite, runTrace,
      devT, pointerBytes, allowedPointers, h, TEMP_REG, HUMI_REG, CONF_REG]

/-- C10: whatever two bytes the device hands back, the value
`read_temperature` returns lies in `[-40, 125)` and the value
`read_humidity` returns lies in `[0, 100)`. -/
theorem readings_within_physical_range :
    ∀ (d : Device) (self : HDC1080),
      (∃ vt : ℚ, runValue (read_temperature devT self) d = .ok vt ∧
        -40 ≤ vt ∧ vt < 125) ∧
      (∃ vh : ℚ, runValue (read_humidity devT self) d = .ok vh ∧
        0 ≤ vh ∧ vh < 100) := by
  intro d self
  constructor
  · refine ⟨((d.regs 0 % 65536 : Nat) : ℚ) * 165 / 65536 - 40, ?_, ?_, ?_⟩
    · simp [runValue, read_temperature, Mbind, Mpure, opWrite, opRead, devT,
        from_bytes2, TEMP_REG]
    · have : (0 : ℚ) ≤ ((d.regs 0 % 65536 : Nat) : ℚ) * 165 / 65536 := by
        positivity
      linarith
    · have hr : ((d.regs 0 % 65536 : Nat) : ℚ) < 65536 := by
        exact_mod_cast Nat.mod_lt _ (by norm_num)
      rw [sub_lt_iff_lt_add, div_lt_iff (by norm_num : (0 : ℚ) < 65536)]
      nlinarith
  · refine ⟨((d.regs 1 % 65536 : Nat) : ℚ) / 65536 * 100, ?_, ?_, ?_⟩
    · simp [runValue, read_humidity, Mbind, Mpure, opWrite, opRead, devT,
        from_bytes2, HUMI_REG]
    · positivity
    · have hr : ((d.regs 1 % 65536 : Nat) : ℚ) < 65536 := by
        exact_mod_cast Nat.mod_lt _ (by norm_num)
      rw [div_mul_eq_mul_div, div_lt_iff (by norm_num : (0 : ℚ) < 65536)]
      nlinarith

end HDC
